import Mathlib

/-!
Shallow embedding of the WPSec command-line client (src/wpsec-cli.py) for
checking the natural-language specification against the code.

The Python program is a thin HTTP client. Network effects are modelled by a
`TransportOutcome` value handed to each operation: either a connection-level
failure (which the requests library surfaces after its internal retries) or a
received `Response`. A `Response` carries the HTTP status code, the textual
body (Python inspects `response.content` bytes; we model them as a `String`),
the result of `response.json()` as an optional parsed JSON value (`none`
models a `json.JSONDecodeError`), and the HTTP reason phrase. Operations that
issue a request only after input validation return, alongside their result,
a record of the requests they issued, so that claims about "no network call"
can be stated.
-/

namespace WPSec

/-- Boolean test that `pat` is a prefix of `s` (character lists). -/
def list_pfx : List Char → List Char → Bool
  | [], _ => true
  | _ :: _, [] => false
  | a :: as, b :: bs => a = b && list_pfx as bs

/-- Boolean test that `needle` occurs as a contiguous substring of `hay`,
matching the semantics of the Python `in` operator on `bytes`/`str`
(an empty needle always occurs). -/
def list_sub : List Char → List Char → Bool
  | needle, [] => needle.isEmpty
  | needle, c :: rest => list_pfx needle (c :: rest) || list_sub needle rest

/-- Embedding of the Python substring test `needle in hay`. -/
def str_contains (hay needle : String) : Bool :=
  list_sub needle.data hay.data

/-- The whitespace characters removed by the Python `str.strip()` default:
space, tab, newline, carriage return, vertical tab, form feed. -/
def py_space (c : Char) : Bool :=
  c = ' ' || c = '\t' || c = '\n' || c = '\r' || c = Char.ofNat 11 || c = Char.ofNat 12

/-- Embedding of the Python `str.strip()` with no argument. -/
def py_strip (s : String) : String :=
  String.mk (((s.data.dropWhile py_space).reverse.dropWhile py_space).reverse)

/-- Left-to-right, non-overlapping replacement of the nonempty pattern
`p :: ps` by `rep`, the semantics of Python `str.replace`. Recursion is on
the `fuel` argument; each step consumes at least one character of `s`, so
any `fuel` of at least `s.length` computes the full replacement. -/
def replace_core (p : Char) (ps rep : List Char) : Nat → List Char → List Char
  | 0, s => s
  | _, [] => []
  | fuel + 1, c :: rest =>
    if list_pfx (p :: ps) (c :: rest) then
      rep ++ replace_core p ps rep fuel (rest.drop ps.length)
    else c :: replace_core p ps rep fuel rest

/-- Embedding of Python `s.replace(pat, rep)`. The program only replaces
nonempty patterns; for an empty pattern we return `s` unchanged. -/
def str_replace (s pat rep : String) : String :=
  match pat.data with
  | [] => s
  | p :: ps => String.mk (replace_core p ps rep.data s.data.length s.data)

/-- Embedding of Python `html.escape` with its default `quote=True`:
the replacements are applied in the same order as in CPython. -/
def html_escape (s : String) : String :=
  let s1 := str_replace s "&" "&amp;"
  let s2 := str_replace s1 "<" "&lt;"
  let s3 := str_replace s2 ">" "&gt;"
  let s4 := str_replace s3 "\"" "&quot;"
  str_replace s4 (String.mk [Char.ofNat 39]) "&#x27;"

/-- Parsed JSON values, the result of a successful `response.json()`. -/
inductive JVal where
  | jstr (s : String)
  | jnum (n : Int)
  | jbool (b : Bool)
  | jnull
  | jarr (xs : List JVal)
  | jobj (fields : List (String × JVal))

/-- Key lookup in a parsed JSON object, the Python `dict` access. -/
def jLookup : List (String × JVal) → String → Option JVal
  | [], _ => none
  | (k, v) :: rest, key => if k = key then some v else jLookup rest key

/-- Rendering of a JSON value into an error-message string (Python `str()`
interpolation). Only the textual error messages depend on this; container
values are abbreviated, and no claim below depends on that rendering. -/
def jValToStr : JVal → String
  | .jstr s => s
  | .jnum n => toString n
  | .jbool b => if b then "True" else "False"
  | .jnull => "None"
  | .jarr _ => "[...]"
  | .jobj _ => "[object]"

/-- Model of a received HTTP response (`requests.Response`): status code,
body text, the outcome of `response.json()` (`none` models a
`json.JSONDecodeError`), and the reason phrase. -/
structure Response where
  status : Nat
  content : String
  jsonBody : Option JVal
  reason : String

/-- The distinct `WPSecAPIError` raise sites of the transport layer
(`_check_response_status` and `_make_request`, lines 132-201). Each
constructor corresponds to one distinct error message of the source. -/
inductive WPSecErr where
  | authFailed
  | notFound
  | rateLimited
  | serverError (code : Nat)
  | httpError (code : Nat) (msg : String)
  | apiDown
  | apiTimeout
  | requestFailed (msg : String)
deriving DecidableEq

/-- The error message extracted in the generic branch of
`_check_response_status` (lines 160-165): `response.json().get('message',
response.text)` when the body parses to an object, otherwise
`response.text or response.reason`. -/
def errMsgOf (r : Response) : String :=
  match r.jsonBody with
  | some (.jobj fs) =>
    match jLookup fs "message" with
    | some v => jValToStr v
    | none => r.content
  | _ => if r.content = "" then r.reason else r.content

/-- Embedding of `WPSecClient._check_response_status` (lines 132-169).
Statuses in `expected` pass (the content-type inspection there only logs a
warning); otherwise the status is classified exactly as in the source. -/
def check_response_status (r : Response) (expected : List Nat) : Except WPSecErr Unit :=
  if r.status ∈ expected then .ok ()
  else if r.status = 401 then .error .authFailed
  else if r.status = 404 then .error .notFound
  else if r.status = 429 then .error .rateLimited
  else if r.status ≥ 500 then .error (.serverError r.status)
  else .error (.httpError r.status (errMsgOf r))

/-- The outcome of one call to `self.session.request` as observed by
`_make_request`: a connection-level failure, a timeout, another request
exception, or a received response. The retry machinery lives inside the
requests adapter; what `_make_request` sees is already its final outcome
(a connection failure after exhausting every retry attempt is the
`connectionFailure` case). -/
inductive TransportOutcome where
  | connectionFailure
  | timeoutFailure
  | otherFailure (msg : String)
  | response (r : Response)

/-- Embedding of `WPSecClient._make_request` (lines 171-201): transport
exceptions become the corresponding `WPSecAPIError`s, and a received
response is checked by `_check_response_status` against `expected`. -/
def make_request (o : TransportOutcome) (expected : List Nat) : Except WPSecErr Response :=
  match o with
  | .connectionFailure => .error .apiDown
  | .timeoutFailure => .error .apiTimeout
  | .otherFailure m => .error (.requestFailed m)
  | .response r =>
    match check_response_status r expected with
    | .ok _ => .ok r
    | .error e => .error e

/-- The dictionary returned by `WPSecClient.ping`: the `slow` key is present
only in the `up` case, exactly as in the source. -/
inductive PingResult where
  | up (responseTime : ℚ) (slow : Bool)
  | down (responseTime : ℚ)
  | error (responseTime : ℚ)
deriving DecidableEq

/-- Embedding of `WPSecClient.ping` (lines 230-248). The measured elapsed
time is the parameter `rt`. Every `WPSecAPIError` raised by `_make_request`
is caught and degraded to the `error` result; the `up`/`down` split is by
the fixed marker `Ping Pong` in the body. -/
def ping (o : TransportOutcome) (rt : ℚ) : PingResult :=
  match make_request o [200, 201, 204] with
  | .error _ => .error rt
  | .ok r =>
    if str_contains r.content "Ping Pong" then .up rt (decide (rt > 1))
    else .down rt

/-- The distinct failure outcomes of `WPSecClient.authenticate`
(lines 203-228). The `api` constructor wraps a `WPSecAPIError` raised by
`_make_request`; `authFailedSignatureOr401` is not separate: the body
signature raises the very same `AUTH_FAILED` error as a 401, so both appear
as `.api .authFailed`. `typeCrash` models an uncaught Python `TypeError`
(membership test or subscript on a non-dictionary parsed body), which the
source does not catch. -/
inductive AuthErr where
  | api (e : WPSecErr)
  | invalidJson (body : String)
  | noAccessToken
  | typeCrash
deriving DecidableEq

/-- Embedding of `WPSecClient.authenticate` (lines 203-228). On success the
returned value is the `access_token` field of the parsed body, which the
source assigns to `self.token`. The source checks, in order: the status
(expected `[200, 201]`), the failure signature `Client authentication
failed` in the raw body, JSON parseability, and presence of the
`access_token` key. A parsed body that is not a dictionary follows the
Python semantics of `'access_token' not in data`: element membership for a
list, substring for a string, an uncaught `TypeError` otherwise, and an
uncaught `TypeError` on the subsequent subscript when membership held. -/
def authenticate (o : TransportOutcome) : Except AuthErr JVal :=
  match make_request o [200, 201] with
  | .error e => .error (.api e)
  | .ok resp =>
    if str_contains resp.content "Client authentication failed" then .error (.api .authFailed)
    else
      match resp.jsonBody with
      | none => .error (.invalidJson resp.content)
      | some data =>
        match data with
        | .jobj fs =>
          match jLookup fs "access_token" with
          | some tok => .ok tok
          | none => .error .noAccessToken
        | .jarr xs =>
          if xs.any (fun v => match v with | .jstr s => s = "access_token" | _ => false) then
            .error .typeCrash
          else .error .noAccessToken
        | .jstr s =>
          if str_contains s "access_token" then .error .typeCrash
          else .error .noAccessToken
        | _ => .error .typeCrash

/-- The session token after one `authenticate` call, given the token held
before the call: `self.token = data['access_token']` executes only on the
successful path (line 228), every error path leaves the field untouched. -/
def token_after (tok0 : Option JVal) (o : TransportOutcome) : Option JVal :=
  match authenticate o with
  | .ok t => some t
  | .error _ => tok0

/-- The failure outcomes of `WPSecClient.get_sites` (lines 250-255):
a `WPSecAPIError` from `_make_request`, or an uncaught
`json.JSONDecodeError` from `response.json()` on an unparseable body. -/
inductive SitesErr where
  | api (e : WPSecErr)
  | jsonDecodeCrash (body : String)
deriving DecidableEq

/-- Embedding of `WPSecClient.get_sites` (lines 250-255): one GET checked
with the default expected statuses `[200, 201, 204]`, then the parsed JSON
body is returned as-is. The body is never inspected for error markers. -/
def get_sites (o : TransportOutcome) : Except SitesErr JVal :=
  match make_request o [200, 201, 204] with
  | .error e => .error (.api e)
  | .ok r =>
    match r.jsonBody with
    | some j => .ok j
    | none => .error (.jsonDecodeCrash r.content)

/-- The components of a URL that `add_site` consults, as produced by
Python `urllib.parse.urlparse`. -/
structure UrlParts where
  scheme : String
  netloc : String
  path : String
deriving DecidableEq

/-- The characters CPython `urlsplit` accepts inside a scheme. -/
def scheme_char (c : Char) : Bool :=
  c.isAlphanum || c = '+' || c = '-' || c = '.'

/-- Model of Python `urllib.parse.urlparse` restricted to the three
components the program reads (scheme, netloc, path). Following CPython
`urlsplit`: a leading `name:` prefix whose first character is a letter and
whose characters are all scheme characters is split off as the lowercased
scheme; a following `//` introduces the netloc, which extends to the next
`/`, `?` or `#`; the path is the remainder up to any `?` or `#`. Query and
fragment are dropped (the program never reads them). -/
def urlparse (url : String) : UrlParts :=
  let cs := url.data
  let schemeRest : List Char × List Char :=
    match cs.findIdx? (· = ':') with
    | some i =>
      if 0 < i ∧ (cs.take i).all scheme_char ∧ (cs.headD ' ').isAlpha then
        ((cs.take i).map Char.toLower, cs.drop (i + 1))
      else ([], cs)
    | none => ([], cs)
  let netlocRest : List Char × List Char :=
    match schemeRest.2 with
    | '/' :: '/' :: r =>
      let n := r.takeWhile (fun c => !(c = '/' || c = '?' || c = '#'))
      (n, r.drop n.length)
    | rest => ([], rest)
  let path := netlocRest.2.takeWhile (fun c => !(c = '?' || c = '#'))
  ⟨String.mk schemeRest.1, String.mk netlocRest.1, String.mk path⟩

/-- The characters `_is_valid_url` forbids in the netloc (line 451):
space, angle brackets, double quote, braces, pipe, backslash, caret and
backtick (the last four written by code point). -/
def forbidden_netloc_chars : List Char :=
  [' ', '<', '>', '"', Char.ofNat 123, Char.ofNat 125, '|', '\\', '^', Char.ofNat 96]

/-- Embedding of `WPSecClient._is_valid_url` (lines 441-456). -/
def is_valid_url (url : String) : Bool :=
  let r := urlparse url
  (r.scheme == "http" || r.scheme == "https")
  && !r.netloc.isEmpty
  && !(forbidden_netloc_chars.any (fun c => r.netloc.data.contains c))
  && (r.netloc.data.contains '.' || r.netloc == "localhost" || r.netloc == "127.0.0.1"
      || r.netloc == "0.0.0.0")

/-- The request payload `{"title": ..., "url": ...}` transmitted by
`add_site` (line 336). -/
structure AddSitePayload where
  title : String
  url : String
deriving DecidableEq

/-- The successful return of `add_site` (line 344): the dictionary
`{'status': 'added', 'title': title, 'url': url}`. -/
structure AddSiteOk where
  title : String
  url : String
deriving DecidableEq

/-- The distinct `WPSecAPIError` raise sites of `add_site`
(lines 257-350), in source order, plus `api` for errors raised inside
`_make_request`. -/
inductive AddSiteErr where
  | emptyTitle
  | titleTooLong (len : Nat)
  | emptyUrl
  | invalidUrl (url : String)
  | missingDomain
  | containsSpaces
  | didYouMean (scheme : String)
  | invalidPort (netloc : String)
  | api (e : WPSecErr)
  | errorInResponse (body : String)
  | siteExists (title url : String)
  | unknownResponse (body : String)
deriving DecidableEq

/-- The response classification tail of `add_site` (lines 338-350): request
with expected statuses `[200, 201]`, then the body markers are tested in
source order: `Error` first, then `"Site added"` (with the double quotes),
then `been taken`; a body matching none is the unknown-response error. -/
def classify_add_response (title url : String) (o : TransportOutcome) :
    Except AddSiteErr AddSiteOk :=
  match make_request o [200, 201] with
  | .error e => .error (.api e)
  | .ok r =>
    if str_contains r.content "Error" then .error (.errorInResponse r.content)
    else if str_contains r.content "\"Site added\"" then .ok ⟨title, url⟩
    else if str_contains r.content "been taken" then .error (.siteExists title url)
    else .error (.unknownResponse r.content)

/-- The digit-string value of a character list, or `none` when empty or
containing a non-digit. -/
def digits_val (ds : List Char) : Option Nat :=
  if ds.isEmpty || !ds.all Char.isDigit then none
  else some (ds.foldl (fun a c => a * 10 + (c.toNat - 48)) 0)

/-- Model of Python `int(s)` on the strings `add_site` feeds it (an
optional sign followed by digits; the underscore and whitespace liberties
of Python `int` are not exercised by a URL port segment). -/
def py_int_of (cs : List Char) : Option Int :=
  match cs with
  | '-' :: ds => (digits_val ds).map (fun n => -(n : Int))
  | '+' :: ds => (digits_val ds).map (fun n => (n : Int))
  | ds => (digits_val ds).map (fun n => (n : Int))

/-- Boolean test that `tail` is a suffix of `s` (character lists),
the Python `str.endswith`. -/
def list_ends (tail s : List Char) : Bool :=
  list_pfx tail.reverse s.reverse

/-- The segment after the last colon of a netloc, the second component of
the Python `netloc.rsplit(':', 1)`. -/
def port_segment (netloc : List Char) : List Char :=
  (netloc.reverse.takeWhile (· ≠ ':')).reverse

/-- Embedding of `WPSecClient.add_site` (lines 257-350). The first
component of the result records the payloads transmitted over the network
(empty when validation failed before any request; the single payload of
line 336 otherwise). Checks appear in exact source order: strip both
inputs; empty title; title over 255 characters; HTML-escape the title;
empty URL; `_is_valid_url`; re-parse and append a trailing slash when the
path is empty; missing netloc; space anywhere in the (possibly extended)
URL; the `htpp`/`htpps` typo check; the local-host warning (a log only);
the port check (applied when the netloc has a colon and does not end in
`:80` or `:443`: the segment after the last colon must parse as an integer
in `[1, 65535]`). -/
def add_site (title0 url0 : String) (o : TransportOutcome) :
    List AddSitePayload × Except AddSiteErr AddSiteOk :=
  let url1 := py_strip url0
  let title1 := py_strip title0
  if title1 = "" then ([], .error .emptyTitle)
  else if title1.data.length > 255 then ([], .error (.titleTooLong title1.data.length))
  else
    let title := html_escape title1
    if url1 = "" then ([], .error .emptyUrl)
    else if !is_valid_url url1 then ([], .error (.invalidUrl url1))
    else
      let parsed := urlparse url1
      let url := if parsed.path = "" then url1 ++ "/" else url1
      if parsed.netloc = "" then ([], .error .missingDomain)
      else if str_contains url " " then ([], .error .containsSpaces)
      else if parsed.scheme = "htpp" ∨ parsed.scheme = "htpps" then
        ([], .error (.didYouMean parsed.scheme))
      else
        let netd := parsed.netloc.data
        let portBad :=
          if netd.contains ':' && !list_ends ":80".data netd && !list_ends ":443".data netd then
            match py_int_of (port_segment netd) with
            | none => true
            | some n => n < 1 || n > 65535
          else false
        if portBad then ([], .error (.invalidPort parsed.netloc))
        else ([⟨title, url⟩], classify_add_response title url o)

/-- The characters of the literal `'0123456789abcdefABCDEF'` of line 363. -/
def is_hex_char (c : Char) : Bool :=
  "0123456789abcdefABCDEF".data.contains c

/-- The validation failure of `get_report` (lines 363-368). -/
inductive GetReportErr where
  | invalidReportId (rid : String)
deriving DecidableEq

/-- Embedding of the validation gate of `WPSecClient.get_report`
(lines 359-372): the input is stripped, then required to be exactly 32
characters, each hexadecimal; on failure the invalid-report-id error is
raised with no request issued, on success one GET to `/report/{id}` is
issued. The first component counts the report requests issued. The
response handling that follows the request (lines 374-439) is not needed
by any claim and is not modelled here. -/
def get_report_request_gate (reportId0 : String) : Nat × Except GetReportErr String :=
  let rid := py_strip reportId0
  if rid.data.length = 32 && rid.data.all is_hex_char then (1, .ok rid)
  else (0, .error (.invalidReportId rid))

/-- Modelled from the spec: a "valid 32-character hexadecimal report id",
following the words of the spec (exactly 32 characters, each in
`[0-9a-fA-F]`), stated of the input string itself. Used to compare the
claimed validation domain with the one the code implements. -/
def spec_valid_report_id (s : String) : Bool :=
  s.data.length = 32 && s.data.all is_hex_char

/-- One report record as the listing code consumes it: the dictionary
values that carry a `reportId` key (line 679). The service serves reports
oldest-first across and within pages, so `createdAt` is modelled as a
numeric timestamp. -/
structure Report where
  reportId : String
  createdAt : Nat
deriving DecidableEq

/-- The pagination metadata of the listing response
(`data.paginate`, lines 650-653). -/
structure Paginate where
  last_page : Int
  total : Int
  per_page : Int
deriving DecidableEq

/-- One raw listing response: the pagination block plus the report records
of the `data` dictionary in service order. -/
structure ReportsPage where
  paginate : Paginate
  reports : List Report
deriving DecidableEq

/-- The failure outcome of `_action_list_reports`: the out-of-range page
message of lines 660-663. -/
inductive ListReportsErr where
  | pageOutOfRange (requested lastPage : Int)
deriving DecidableEq

/-- Embedding of `WPSecCLI._action_list_reports` (lines 637-715). The
service is a function from page number to raw listing response; the first
component of the result lists the pages fetched over the network, in
order. Following the source: service page 1 is fetched for its pagination
block; the page to fetch is `last_page - userPage + 1`; out of range stops
with the error; the already-fetched page 1 is reused when that value is 1;
on user page 1, when the fetched page is short of `per_page` and is not
service page 1, the preceding service page is fetched and its tail
(`prev[-needed:]`, the whole list when `needed` is not below its length)
is appended after the current entries, the concatenation reversed and
truncated to `per_page`; otherwise the fetched entries are simply
reversed. Inside the short-page branch `needed` is at least 1 and
`per_page` at least 1, so the `Int.toNat` coercions agree with the Python
slice arithmetic. -/
def action_list_reports (svc : Int → ReportsPage) (userPage : Int) :
    List Int × Except ListReportsErr (List Report) :=
  let first := svc 1
  let total_pages := first.paginate.last_page
  let per_page := first.paginate.per_page
  let actual := total_pages - userPage + 1
  if actual < 1 ∨ actual > total_pages then
    ([1], .error (.pageOutOfRange userPage total_pages))
  else
    let fetched : List Int := if actual = 1 then [] else [actual]
    let reports := if actual = 1 then first else svc actual
    let report_list := reports.reports
    if userPage = 1 ∧ (report_list.length : Int) < per_page ∧ actual > 1 then
      let prev_list := (svc (actual - 1)).reports
      let needed : Int := per_page - report_list.length
      let additional :=
        if needed < (prev_list.length : Int) then prev_list.drop (prev_list.length - needed.toNat)
        else prev_list
      let combined := (report_list ++ additional).reverse
      ([1] ++ fetched ++ [actual - 1], .ok (combined.take per_page.toNat))
    else
      ([1] ++ fetched, .ok report_list.reverse)

/-- Boolean test that a report list is strictly newest-first: every entry
is strictly newer (larger `createdAt`) than the one after it. -/
def newest_first : List Report → Bool
  | [] => true
  | [_] => true
  | a :: b :: rest => (b.createdAt < a.createdAt) && newest_first (b :: rest)

/-- A concrete report record: the identifier is the decimal rendering of
its timestamp, so distinct numbers give distinct `reportId`s. -/
def rpt (n : Nat) : Report := ⟨toString n, n⟩

/-- A concrete raw report listing with `per_page = 50`, `total = 53`,
`last_page = 2`: the service serves oldest-first, so service page 1 holds
reports 1-50 and service page 2 the three newest reports 51-53, ascending
`createdAt` within each page. -/
def svc53 : Int → ReportsPage := fun p =>
  if p = 2 then ⟨⟨2, 53, 50⟩, (List.range 3).map (fun k => rpt (51 + k))⟩
  else ⟨⟨2, 53, 50⟩, (List.range 50).map (fun k => rpt (1 + k))⟩

/-- The list `_action_list_reports` produces from `svc53` for user page 1:
reports 50 down to 4, followed by 53, 52, 51 — the three newest reports of
the remainder page end up last. -/
def out53 : List Report :=
  ((List.range 47).map (fun k => rpt (50 - k))) ++ [rpt 53, rpt 52, rpt 51]

/-- C1: evaluation of the listing reassembly at a concrete raw listing
with `perPage = 50`, `total = 53`, `lastPage = 2`, user page 1 (the
remainder case: the newest service page holds 3 of 53 reports). The claim
holds that the output is exactly `min(perPage, total)` entries with no
duplicate `reportId`, produced by concatenating the remainder entries then
the filler entries, reversing and truncating — and that it is strictly
newest-first. The first four conjuncts confirm the count, the uniqueness
and the concatenate-reverse-truncate construction; the last conjunct shows
the order is NOT newest-first: reversing `remainder ++ filler` puts the
reversed filler (reports 50 down to 4) first and the three newest reports
(53, 52, 51) last, against both the claim and the stated intent of the
source (the comment of line 700 and the newest-first banner of line 813). -/
theorem listReports_remainder_reassembly_code_bug :
    action_list_reports svc53 1 = ([1, 2, 1], .ok out53) ∧
    out53 = ((svc53 2).reports ++ (svc53 1).reports.drop 3).reverse.take 50 ∧
    out53.length = min 50 53 ∧
    (out53.map Report.reportId).Nodup ∧
    newest_first out53 = false :=
  ⟨by rfl, by rfl, by decide, by decide, by rfl⟩

/-- C2: for every service and every user page, when
`lastPage - userPage + 1` falls outside `[1, lastPage]` the listing stops
with the page-out-of-range error after the single metadata fetch of
service page 1: no further page is fetched. -/
theorem listReports_pageOutOfRange (svc : Int → ReportsPage) (userPage : Int)
    (h : (svc 1).paginate.last_page - userPage + 1 < 1 ∨
         (svc 1).paginate.last_page - userPage + 1 > (svc 1).paginate.last_page) :
    action_list_reports svc userPage =
      ([1], .error (.pageOutOfRange userPage (svc 1).paginate.last_page)) := by
  simp only [action_list_reports]
  rw [if_pos h]

/-- Witness for C2: `lastPage = 2`, requested user page 5, so the computed
service page is `2 - 5 + 1 = -2`, out of range; only page 1 was fetched. -/
theorem listReports_pageOutOfRange_witness :
    action_list_reports (fun _ => ⟨⟨2, 53, 50⟩, []⟩) 5 = ([1], .error (.pageOutOfRange 5 2)) :=
  listReports_pageOutOfRange (fun _ => ⟨⟨2, 53, 50⟩, []⟩) 5 (by decide)

/-- C9: whenever the computed service page `lastPage - userPage + 1`
equals 1, the operation fetches exactly one page (the metadata fetch of
service page 1, whose data is reused), and in range it returns that page
reversed. -/
theorem listReports_actual_page_one_single_fetch (svc : Int → ReportsPage) (userPage : Int)
    (h : (svc 1).paginate.last_page - userPage + 1 = 1) :
    (action_list_reports svc userPage).1 = [1] ∧
    (1 ≤ (svc 1).paginate.last_page →
      action_list_reports svc userPage = ([1], .ok (svc 1).reports.reverse)) := by
  simp only [action_list_reports, h]
  constructor
  · by_cases h2 : (1 : Int) < 1 ∨ (1 : Int) > (svc 1).paginate.last_page
    · rw [if_pos h2]
    · rw [if_neg h2]
      simp
  · intro h3
    rw [if_neg (by omega)]
    simp

/-- Witness for C9: a one-page listing requested as user page 1 issues a
single fetch and returns the page reversed. -/
theorem listReports_actual_page_one_single_fetch_witness :
    (action_list_reports (fun _ => ⟨⟨1, 2, 50⟩, [⟨"a", 1⟩, ⟨"b", 2⟩]⟩) 1).1 = [1] ∧
    action_list_reports (fun _ => ⟨⟨1, 2, 50⟩, [⟨"a", 1⟩, ⟨"b", 2⟩]⟩) 1
      = ([1], .ok [⟨"b", 2⟩, ⟨"a", 1⟩]) :=
  ⟨(listReports_actual_page_one_single_fetch _ 1 (by decide)).1,
   (listReports_actual_page_one_single_fetch (fun _ => ⟨⟨1, 2, 50⟩, [⟨"a", 1⟩, ⟨"b", 2⟩]⟩) 1
      (by decide)).2 (by decide)⟩

/-- Counterexample for C3: the input string below is NOT a valid
32-character hexadecimal report id (it is 33 characters, starting with a
space), so the claim requires the operation to fail with no network call;
the code strips the input first, so validation passes and one request is
issued. -/
theorem get_report_padded_id_passes_counterexample :
    spec_valid_report_id " 0123456789abcdef0123456789abcdef" = false ∧
    get_report_request_gate " 0123456789abcdef0123456789abcdef"
      = (1, .ok "0123456789abcdef0123456789abcdef") :=
  ⟨by decide, by rfl⟩

/-- C3 (amended): validation applies to the whitespace-stripped input:
when the stripped string is a valid 32-character hexadecimal id the single
report request is issued for it, and otherwise the operation fails with
the invalid-report-id error and zero network calls. -/
theorem get_report_gate_trim_classification (s : String) :
    (spec_valid_report_id (py_strip s) = true →
      get_report_request_gate s = (1, .ok (py_strip s))) ∧
    (spec_valid_report_id (py_strip s) = false →
      get_report_request_gate s = (0, .error (.invalidReportId (py_strip s)))) := by
  constructor
  · intro h
    unfold spec_valid_report_id at h
    unfold get_report_request_gate
    rw [if_pos h]
  · intro h
    unfold spec_valid_report_id at h
    unfold get_report_request_gate
    rw [if_neg (by rw [h]; exact Bool.false_ne_true)]

/-- Witness for C3 (amended): a valid mixed-case id issues one request; a
two-character id fails with zero requests. -/
theorem get_report_gate_trim_classification_witness :
    get_report_request_gate "0123456789abcdef0123456789ABCDEF"
      = (1, .ok "0123456789abcdef0123456789ABCDEF") ∧
    get_report_request_gate "zz" = (0, .error (.invalidReportId "zz")) :=
  ⟨(get_report_gate_trim_classification "0123456789abcdef0123456789ABCDEF").1 (by rfl),
   (get_report_gate_trim_classification "zz").2 (by rfl)⟩

/-- C4: `ping` returns a status record for every transport outcome (the
function is total, so no exception can propagate): every transport
failure, including a connection failure after all retry attempts, and
every response whose status check raises, yields the `error` status; a
passing response containing the `Ping Pong` marker yields `up` with
`slow = responseTime > 1`; a passing response without the marker yields
`down` whatever its (passing) status code. -/
theorem ping_total_classification (o : TransportOutcome) (rt : ℚ) :
    (o = .connectionFailure → ping o rt = .error rt) ∧
    (o = .timeoutFailure → ping o rt = .error rt) ∧
    (∀ m, o = .otherFailure m → ping o rt = .error rt) ∧
    (∀ r, o = .response r → (check_response_status r [200, 201, 204]).isOk = false →
        ping o rt = .error rt) ∧
    (∀ r, o = .response r → (check_response_status r [200, 201, 204]).isOk = true →
        str_contains r.content "Ping Pong" = true → ping o rt = .up rt (decide (rt > 1))) ∧
    (∀ r, o = .response r → (check_response_status r [200, 201, 204]).isOk = true →
        str_contains r.content "Ping Pong" = false → ping o rt = .down rt) := by
  refine ⟨?_, ?_, ?_, ?_, ?_, ?_⟩
  · intro h; subst h; rfl
  · intro h; subst h; rfl
  · intro m h; subst h; rfl
  · intro r h hc; subst h
    cases h2 : check_response_status r [200, 201, 204] with
    | ok u => rw [h2] at hc; simp [Except.isOk, Except.toBool] at hc
    | error e => simp [ping, make_request, h2]
  · intro r h hc hm; subst h
    cases h2 : check_response_status r [200, 201, 204] with
    | ok u => simp [ping, make_request, h2, hm]
    | error e => rw [h2] at hc; simp [Except.isOk, Except.toBool] at hc
  · intro r h hc hm; subst h
    cases h2 : check_response_status r [200, 201, 204] with
    | ok u => simp [ping, make_request, h2, hm]
    | error e => rw [h2] at hc; simp [Except.isOk, Except.toBool] at hc

/-- Witness for C4: a marker response pings up (and slow is false at 2
seconds only when over 1, here true is expected since 2 > 1); a connection
failure after all retries degrades to the error status; a 204 without
marker is down; a 503 degrades to error. -/
theorem ping_total_classification_witness :
    ping (.response ⟨200, "Ping Pong", none, ""⟩) 2 = .up 2 true ∧
    ping .connectionFailure 2 = .error 2 ∧
    ping (.response ⟨204, "", none, ""⟩) 2 = .down 2 ∧
    ping (.response ⟨503, "Ping Pong", none, ""⟩) 2 = .error 2 :=
  ⟨(ping_total_classification (.response ⟨200, "Ping Pong", none, ""⟩) 2).2.2.2.2.1
      ⟨200, "Ping Pong", none, ""⟩ rfl (by rfl) (by rfl),
   (ping_total_classification .connectionFailure 2).1 rfl,
   (ping_total_classification (.response ⟨204, "", none, ""⟩) 2).2.2.2.2.2
      ⟨204, "", none, ""⟩ rfl (by rfl) (by rfl),
   (ping_total_classification (.response ⟨503, "Ping Pong", none, ""⟩) 2).2.2.2.1
      ⟨503, "Ping Pong", none, ""⟩ rfl (by rfl)⟩

/-- Counterexample for C5: a 404 response to the token endpoint is a
non-2xx status, so the claim requires `AuthenticationFailed`; the code
raises the report-not-found error instead (`_check_response_status`,
line 149), a different error value. -/
theorem authenticate_404_not_authFailed_counterexample :
    authenticate (.response ⟨404, "", none, ""⟩) = .error (.api .notFound) ∧
    WPSecErr.notFound ≠ WPSecErr.authFailed :=
  ⟨by rfl, by decide⟩

/-- C5 (amended): a 401 status, or the authentication-failure signature in
a passing body, yields the authentication-failed error (other non-expected
statuses yield their own status-specific errors); a passing body without
the signature that does not parse yields the invalid-JSON error; a parsed
object body lacking `access_token` yields the missing-token error; the
token field is assigned only by the successful path: every error outcome
leaves it unchanged (in particular unset when it was unset), and success
sets it to the extracted value. -/
theorem authenticate_classification (o : TransportOutcome) :
    (∀ r, o = .response r → r.status = 401 → authenticate o = .error (.api .authFailed)) ∧
    (∀ r, o = .response r → r.status ∈ [200, 201] →
        str_contains r.content "Client authentication failed" = true →
        authenticate o = .error (.api .authFailed)) ∧
    (∀ r, o = .response r → r.status ∈ [200, 201] →
        str_contains r.content "Client authentication failed" = false → r.jsonBody = none →
        authenticate o = .error (.invalidJson r.content)) ∧
    (∀ r fs, o = .response r → r.status ∈ [200, 201] →
        str_contains r.content "Client authentication failed" = false →
        r.jsonBody = some (.jobj fs) → jLookup fs "access_token" = none →
        authenticate o = .error .noAccessToken) ∧
    (∀ r fs tok, o = .response r → r.status ∈ [200, 201] →
        str_contains r.content "Client authentication failed" = false →
        r.jsonBody = some (.jobj fs) → jLookup fs "access_token" = some tok →
        authenticate o = .ok tok) ∧
    (∀ tok0, (authenticate o).isOk = false → token_after tok0 o = tok0) ∧
    (∀ t, authenticate o = .ok t → token_after none o = some t) := by
  refine ⟨?_, ?_, ?_, ?_, ?_, ?_, ?_⟩
  · intro r h hs; subst h
    simp [authenticate, make_request, check_response_status, hs]
  · intro r h hs hm; subst h
    simp only [List.mem_cons, List.mem_singleton, List.not_mem_nil, or_false] at hs
    rcases hs with h1 | h1 <;>
      simp [authenticate, make_request, check_response_status, h1, hm]
  · intro r h hs hm hj; subst h
    simp only [List.mem_cons, List.mem_singleton, List.not_mem_nil, or_false] at hs
    rcases hs with h1 | h1 <;>
      simp [authenticate, make_request, check_response_status, h1, hm, hj]
  · intro r fs h hs hm hj hl; subst h
    simp only [List.mem_cons, List.mem_singleton, List.not_mem_nil, or_false] at hs
    rcases hs with h1 | h1 <;>
      simp [authenticate, make_request, check_response_status, h1, hm, hj, hl]
  · intro r fs tok h hs hm hj hl; subst h
    simp only [List.mem_cons, List.mem_singleton, List.not_mem_nil, or_false] at hs
    rcases hs with h1 | h1 <;>
      simp [authenticate, make_request, check_response_status, h1, hm, hj, hl]
  · intro tok0 h
    unfold token_after
    cases h2 : authenticate o with
    | ok t => rw [h2] at h; simp [Except.isOk, Except.toBool] at h
    | error e => rfl
  · intro t h
    unfold token_after
    rw [h]

/-- Witness for C5 (amended): a 401 yields the authentication-failed error
and leaves the token unset; a parsed body with an `access_token` field
succeeds with that token value. -/
theorem authenticate_classification_witness :
    authenticate (.response ⟨401, "", none, ""⟩) = .error (.api .authFailed) ∧
    token_after none (.response ⟨401, "", none, ""⟩) = none ∧
    authenticate (.response ⟨200, "x", some (.jobj [("access_token", .jstr "tok")]), ""⟩)
      = .ok (.jstr "tok") :=
  ⟨(authenticate_classification (.response ⟨401, "", none, ""⟩)).1 _ rfl rfl,
   (authenticate_classification (.response ⟨401, "", none, ""⟩)).2.2.2.2.2.1 none (by rfl),
   (authenticate_classification
      (.response ⟨200, "x", some (.jobj [("access_token", .jstr "tok")]), ""⟩)).2.2.2.2.1
      _ _ _ rfl (by decide) (by rfl) rfl (by rfl)⟩

/-- Counterexample for C6: a 200 response whose body contains the error
marker `Error` is returned as the parsed site list; the claim requires a
fatal `ApiError`, but `get_sites` never inspects the body. -/
theorem get_sites_error_marker_body_ok_counterexample :
    str_contains "[\"Error: boom\"]" "Error" = true ∧
    get_sites (.response ⟨200, "[\"Error: boom\"]", some (.jarr [.jstr "Error: boom"]), ""⟩)
      = .ok (.jarr [.jstr "Error: boom"]) :=
  ⟨by rfl, by rfl⟩

/-- C6 (amended): any response status outside the expected set
`{200, 201, 204}` makes `get_sites` fail with a `WPSecAPIError` (the
status-specific error of `_check_response_status`); a passing response is
returned as its parsed JSON body with no inspection of the body for error
markers (an unparseable passing body raises an uncaught JSON decode
error); a connection failure is the API-down error. -/
theorem get_sites_status_only_classification (o : TransportOutcome) :
    (∀ r, o = .response r → ¬ r.status ∈ [200, 201, 204] → ∃ e, get_sites o = .error (.api e)) ∧
    (∀ r j, o = .response r → r.status ∈ [200, 201, 204] → r.jsonBody = some j →
        get_sites o = .ok j) ∧
    (∀ r, o = .response r → r.status ∈ [200, 201, 204] → r.jsonBody = none →
        get_sites o = .error (.jsonDecodeCrash r.content)) ∧
    (o = .connectionFailure → get_sites o = .error (.api .apiDown)) := by
  refine ⟨?_, ?_, ?_, ?_⟩
  · intro r h hs; subst h
    simp only [get_sites, make_request, check_response_status]
    rw [if_neg hs]
    by_cases h1 : r.status = 401
    · simp [h1]
    · by_cases h2 : r.status = 404
      · simp [h1, h2]
      · by_cases h3 : r.status = 429
        · simp [h1, h2, h3]
        · by_cases h4 : r.status ≥ 500
          · simp [h1, h2, h3, h4]
          · simp [h1, h2, h3, h4]
  · intro r j h hs hj; subst h
    simp only [List.mem_cons, List.mem_singleton, List.not_mem_nil, or_false] at hs
    rcases hs with h1 | h1 | h1 <;>
      simp [get_sites, make_request, check_response_status, h1, hj]
  · intro r h hs hj; subst h
    simp only [List.mem_cons, List.mem_singleton, List.not_mem_nil, or_false] at hs
    rcases hs with h1 | h1 | h1 <;>
      simp [get_sites, make_request, check_response_status, h1, hj]
  · intro h; subst h; rfl

/-- Witness for C6 (amended): a 404 fails with a `WPSecAPIError`, a 200
with a parsed body returns that body. -/
theorem get_sites_status_only_classification_witness :
    (∃ e, get_sites (.response ⟨404, "", none, ""⟩) = .error (.api e)) ∧
    get_sites (.response ⟨200, "[1]", some (.jarr [.jnum 1]), ""⟩) = .ok (.jarr [.jnum 1]) :=
  ⟨(get_sites_status_only_classification (.response ⟨404, "", none, ""⟩)).1 _ rfl (by decide),
   (get_sites_status_only_classification (.response ⟨200, "[1]", some (.jarr [.jnum 1]), ""⟩)).2.1
      _ _ rfl (by decide) (by rfl)⟩

/-- C7: a URL with the typo scheme `htpp` (or `htpps`) is rejected by
`_is_valid_url` (the scheme is not in `{http, https}`), so `add_site`
raises the generic invalid-URL error at line 287 with no request issued:
the targeted did-you-mean branch of lines 311-315 is unreachable for
exactly the schemes it names, against the claim and against the stated
intent of the source (the common-typos comment of line 310). The last
conjunct records that the two errors are distinct values. -/
theorem add_site_typo_scheme_generic_error :
    add_site "My Site" "htpp://example.com" (.response ⟨200, "\"Site added\"", none, ""⟩)
      = ([], .error (.invalidUrl "htpp://example.com")) ∧
    add_site "My Site" "htpps://example.com" (.response ⟨200, "\"Site added\"", none, ""⟩)
      = ([], .error (.invalidUrl "htpps://example.com")) ∧
    (urlparse "htpp://example.com").scheme = "htpp" ∧
    (urlparse "htpps://example.com").scheme = "htpps" ∧
    AddSiteErr.invalidUrl "htpp://example.com" ≠ AddSiteErr.didYouMean "htpp" :=
  ⟨by rfl, by rfl, by rfl, by rfl, by decide⟩

/-- C8: adding a site with title `"  My Site  "` and url
`"http://example.com"` transmits, and on a success-marker response
returns, the trimmed and HTML-escaped title `"My Site"` and the url
`"http://example.com/"` with the trailing slash appended because the
parsed URL has no path component. -/
theorem add_site_normalizes_title_and_url :
    add_site "  My Site  " "http://example.com" (.response ⟨200, "\"Site added\"", none, ""⟩)
      = ([⟨"My Site", "http://example.com/"⟩], .ok ⟨"My Site", "http://example.com/"⟩) ∧
    html_escape (py_strip "  My Site  ") = "My Site" ∧
    (urlparse "http://example.com").path = "" :=
  ⟨by rfl, by rfl, by rfl⟩

/-- C10: the response classification of `add_site` tests the body markers
in a fixed order: a passing body containing the generic marker `Error`
raises the generic in-response error even when the success or
already-exists markers are also present (witnessed below), and a body
containing none of the three markers always raises the unknown-response
error, never success. -/
theorem add_site_marker_order (title url : String) (r : Response) (h : r.status = 200) :
    (str_contains r.content "Error" = true →
        classify_add_response title url (.response r) = .error (.errorInResponse r.content)) ∧
    (str_contains r.content "Error" = false → str_contains r.content "\"Site added\"" = false →
        str_contains r.content "been taken" = false →
        classify_add_response title url (.response r) = .error (.unknownResponse r.content)) := by
  constructor
  · intro h1
    simp [classify_add_response, make_request, check_response_status, h, h1]
  · intro h1 h2 h3
    simp [classify_add_response, make_request, check_response_status, h, h1, h2, h3]

/-- Witness for C10: a body holding all three markers raises the generic
in-response error; a body holding none raises the unknown-response
error. -/
theorem add_site_marker_order_witness :
    classify_add_response "T" "u"
        (.response ⟨200, "Error: \"Site added\" has been taken", none, ""⟩)
      = .error (.errorInResponse "Error: \"Site added\" has been taken") ∧
    classify_add_response "T" "u" (.response ⟨200, "hello", none, ""⟩)
      = .error (.unknownResponse "hello") :=
  ⟨(add_site_marker_order "T" "u" ⟨200, "Error: \"Site added\" has been taken", none, ""⟩ rfl).1
      (by rfl),
   (add_site_marker_order "T" "u" ⟨200, "hello", none, ""⟩ rfl).2 (by rfl) (by rfl) (by rfl)⟩

end WPSec
